import Mathlib

/-!
Verification of the moderation bot in src/bot.py: role-configuration store,
warning ledger, permission predicates, and the control flow of the command
handlers over an explicit state and effect trace.

Python dicts are modelled as finite maps `Nat → Option α`; insertion order
is never observed by any modelled operation.  Guild, user and role
identifiers are modelled as `Nat` (the code keys its JSON documents by
`str(id)`, and `str` is injective on ids, so nothing is lost).
-/

/-- Python `d.get(k, dflt)` on a dict modelled as a finite map. -/
def dgetD {α : Type} (d : Nat → Option α) (k : Nat) (dflt : α) : α :=
  match d k with
  | some v => v
  | none => dflt

/-- Python `d[k] = v`; also the net effect of `d.setdefault(k, _)` followed
by in-place mutation of the entry. -/
def dset {α : Type} (d : Nat → Option α) (k : Nat) (v : α) : Nat → Option α :=
  fun q => if q = k then some v else d q

/-- Python `d.pop(k, None)` (the resulting dict; the popped value is unused
by the code). -/
def dpop {α : Type} (d : Nat → Option α) (k : Nat) : Nat → Option α :=
  fun q => if q = k then none else d q

/-- One per-guild entry of config.json: either JSON key may be absent. -/
structure GuildConfig where
  mod_role_id : Option Nat := none
  admin_role_id : Option Nat := none
deriving Repr, DecidableEq

/-- The config.json document: guild id (stringified in the code) to entry. -/
abbrev ConfigDoc := Nat → Option GuildConfig

/-- The empty config document, Python `{}`. -/
def emptyConfigDoc : ConfigDoc := fun _ => none

/-- bot.py `get_mod_role_id` (lines 42-43):
`load_config().get(str(guild_id), {}).get("mod_role_id")`. -/
def get_mod_role_id (cfg : ConfigDoc) (gid : Nat) : Option Nat :=
  (dgetD cfg gid {}).mod_role_id

/-- bot.py `get_admin_role_id` (lines 45-46). -/
def get_admin_role_id (cfg : ConfigDoc) (gid : Nat) : Option Nat :=
  (dgetD cfg gid {}).admin_role_id

/-- Store mutation of /setmodrole (lines 210-212):
`data.setdefault(str(guild.id), {})["mod_role_id"] = role.id`. -/
def set_moderator_role (cfg : ConfigDoc) (gid rid : Nat) : ConfigDoc :=
  dset cfg gid { dgetD cfg gid {} with mod_role_id := some rid }

/-- Store mutation of /setadminrole (lines 222-224). -/
def set_administrator_role (cfg : ConfigDoc) (gid rid : Nat) : ConfigDoc :=
  dset cfg gid { dgetD cfg gid {} with admin_role_id := some rid }

/-- One warning record of warnings.json (bot.py lines 466-470). -/
structure WarnRecord where
  reason : String
  moderator : String
  timestamp : String
deriving Repr, DecidableEq

/-- The warnings.json document: guild id to (user id to record list). -/
abbrev WarnDoc := Nat → Option (Nat → Option (List WarnRecord))

/-- The empty warnings document, Python `{}`. -/
def emptyWarnDoc : WarnDoc := fun _ => none

/-- Read path of /warnings (lines 499-502) and /userinfo:
`data.get(guild_id, {}).get(user_id, [])`. -/
def list_warnings (w : WarnDoc) (gid uid : Nat) : List WarnRecord :=
  dgetD (dgetD w gid (fun _ => none)) uid []

/-- Ledger mutation of /warn (lines 462-473): setdefault both nested keys,
append the record, and report the post-append count of the entry. -/
def add_warning (w : WarnDoc) (gid uid : Nat) (rec : WarnRecord) :
    WarnDoc × Nat :=
  let um := dgetD w gid (fun _ => none)
  let recs := dgetD um uid [] ++ [rec]
  (dset w gid (dset um uid recs), recs.length)

/-- Ledger mutation of /clearwarnings (lines 290-294):
`data.get(guild_id, {}).pop(user_id, None)`.  When the guild key is absent
the pop acts on a fresh temporary dict and the document is saved unchanged;
when present, the popped inner dict is an alias into the document. -/
def clear_warnings (w : WarnDoc) (gid uid : Nat) : WarnDoc :=
  match w gid with
  | none => w
  | some um => dset w gid (dpop um uid)

/-- N sequential /warn ledger mutations for one (guild, user) pair; the
second component is the count reported by the last call (0 if no call). -/
def add_warning_seq (w : WarnDoc) (gid uid : Nat) (recs : List WarnRecord) :
    WarnDoc × Nat :=
  recs.foldl (fun p r => add_warning p.1 gid uid r) (w, 0)

/-- A guild member as the handlers see one: role-id set, rank of the top
role, and the platform-level administrator permission flag. -/
structure Member where
  id : Nat
  roles : List Nat
  top_role : Nat
  administrator : Bool
deriving Repr, DecidableEq

/-- Python truthiness of `role_id and role_id in role_ids` where `role_id`
is `None` or an int: both `None` and `0` are falsy (bot.py lines 109, 129). -/
def idTruthyMem (o : Option Nat) (ids : List Nat) : Bool :=
  match o with
  | none => false
  | some x => x != 0 && ids.contains x

/-- bot.py `is_mod` predicate body (lines 101-114): platform administrator,
or the configured admin role, or the configured moderator role. -/
def is_mod_check (cfg : ConfigDoc) (gid : Nat) (user : Member) : Bool :=
  if user.administrator then true
  else if idTruthyMem (get_admin_role_id cfg gid) user.roles
      || idTruthyMem (get_mod_role_id cfg gid) user.roles then true
  else false

/-- bot.py `is_admin` predicate body (lines 124-134): platform administrator
or the configured admin role only. -/
def is_admin_check (cfg : ConfigDoc) (gid : Nat) (user : Member) : Bool :=
  if user.administrator then true
  else if idTruthyMem (get_admin_role_id cfg gid) user.roles then true
  else false

/-- Modelled from the spec (section 4.3), for comparison with is_mod_check:
can_moderate is true when the acting user holds platform-level administrator
permission, or holds the server's configured administrator role, or holds
the server's configured moderator role. -/
def can_moderate (cfg : ConfigDoc) (gid : Nat) (user : Member) : Prop :=
  user.administrator = true
  ∨ (∃ r, get_admin_role_id cfg gid = some r ∧ r ∈ user.roles)
  ∨ (∃ r, get_mod_role_id cfg gid = some r ∧ r ∈ user.roles)

/-- Modelled from the spec (section 4.3), for comparison with is_admin_check:
can_administer is true when the acting user holds platform-level
administrator permission or the configured administrator role; the
moderator role does not qualify. -/
def can_administer (cfg : ConfigDoc) (gid : Nat) (user : Member) : Prop :=
  user.administrator = true
  ∨ (∃ r, get_admin_role_id cfg gid = some r ∧ r ∈ user.roles)

/-- State of a JSON backing file as the loaders can observe it. -/
inductive FileState (α : Type) where
  | absent : FileState α
  | unreadable : FileState α
  | corrupt : FileState α
  | stored : α → FileState α

/-- bot.py `load_config` (lines 32-36): a missing file yields the empty
dict; an existing file is opened and json-parsed, and an open failure
(OSError) or a parse failure (JSONDecodeError) propagates to the caller —
only the missing-file case is guarded. -/
def load_config (fs : FileState ConfigDoc) : Except String ConfigDoc :=
  match fs with
  | .absent => Except.ok emptyConfigDoc
  | .unreadable => Except.error "OSError"
  | .corrupt => Except.error "JSONDecodeError"
  | .stored d => Except.ok d

/-- bot.py `load_warnings` (lines 52-56): same shape as `load_config`. -/
def load_warnings (fs : FileState WarnDoc) : Except String WarnDoc :=
  match fs with
  | .absent => Except.ok emptyWarnDoc
  | .unreadable => Except.error "OSError"
  | .corrupt => Except.error "JSONDecodeError"
  | .stored d => Except.ok d

/-- The bot's persistent state: the two JSON documents. -/
structure BotState where
  config : ConfigDoc
  warns : WarnDoc

/-- Externally visible effects a handler can emit, in emission order.
`reply` is `interaction.response.send_message` (including every ephemeral
rejection), `dmSend` a delivered `member.send`, `channelMsg` a plain
channel message, `auditLog` the `log(...)` call, and the platform
constructors are the privileged API calls. -/
inductive Effect where
  | reply
  | dmSend
  | channelMsg
  | platformBan (uid : Nat)
  | platformKick (uid : Nat)
  | platformTimeout (uid : Nat)
  | platformUntimeout (uid : Nat)
  | platformAddRole (uid rid : Nat)
  | platformRemoveRole (uid rid : Nat)
  | platformUnban (uid : Nat)
  | platformPurge
  | platformEditChannel
  | platformSetPermissions
  | auditLog
deriving Repr, DecidableEq

/-- Invocation context of a slash command: guild, acting user, whether the
target's direct messages are open (member.send raises Forbidden when not),
`str(interaction.user)` and `datetime.utcnow().isoformat()`. -/
structure Ctx where
  gid : Nat
  actor : Member
  dmOk : Bool
  actorName : String
  now : String

/-- bot.py /ban (lines 230-262): admin gate, hierarchy check on the
target's top role, best-effort DM with Forbidden swallowed, ban, reply,
audit.  The reason and delete_days arguments only affect message text. -/
def run_ban (ctx : Ctx) (m : Member) (st : BotState) : BotState × List Effect :=
  if is_admin_check st.config ctx.gid ctx.actor = true then
    if m.top_role ≥ ctx.actor.top_role then (st, [Effect.reply])
    else
      (st, (if ctx.dmOk then [Effect.dmSend] else [])
        ++ [Effect.platformBan m.id, Effect.reply, Effect.auditLog])
  else (st, [Effect.reply])

/-- bot.py /kick (lines 375-402): mod gate, same hierarchy check and DM
handling as /ban. -/
def run_kick (ctx : Ctx) (m : Member) (st : BotState) : BotState × List Effect :=
  if is_mod_check st.config ctx.gid ctx.actor = true then
    if m.top_role ≥ ctx.actor.top_role then (st, [Effect.reply])
    else
      (st, (if ctx.dmOk then [Effect.dmSend] else [])
        ++ [Effect.platformKick m.id, Effect.reply, Effect.auditLog])
  else (st, [Effect.reply])

/-- bot.py /timeout (lines 405-432): mod gate, hierarchy check on the
target's top role, no DM, timeout, reply, audit. -/
def run_timeout (ctx : Ctx) (m : Member) (minutes : Nat) (st : BotState) :
    BotState × List Effect :=
  if is_mod_check st.config ctx.gid ctx.actor = true then
    if m.top_role ≥ ctx.actor.top_role then (st, [Effect.reply])
    else (st, [Effect.platformTimeout m.id, Effect.reply, Effect.auditLog])
  else (st, [Effect.reply])

/-- bot.py /untimeout (lines 435-451): mod gate, then the timeout is
removed unconditionally — the handler has no hierarchy check. -/
def run_untimeout (ctx : Ctx) (m : Member) (st : BotState) :
    BotState × List Effect :=
  if is_mod_check st.config ctx.gid ctx.actor = true then
    (st, [Effect.platformUntimeout m.id, Effect.reply, Effect.auditLog])
  else (st, [Effect.reply])

/-- bot.py /warn (lines 454-492): mod gate, append to the ledger and save,
best-effort DM with Forbidden swallowed, reply and audit reporting the
post-append count. -/
def run_warn (ctx : Ctx) (m : Member) (reason : String) (st : BotState) :
    BotState × List Effect :=
  if is_mod_check st.config ctx.gid ctx.actor = true then
    let res := add_warning st.warns ctx.gid m.id
      { reason := reason, moderator := ctx.actorName, timestamp := ctx.now }
    ({ st with warns := res.1 },
      (if ctx.dmOk then [Effect.dmSend] else [])
        ++ [Effect.reply, Effect.auditLog])
  else (st, [Effect.reply])

/-- bot.py /warnings (lines 495-519): mod gate; read-only, replies either
the listing or the no-warnings note. -/
def run_warnings (ctx : Ctx) (m : Member) (st : BotState) :
    BotState × List Effect :=
  if is_mod_check st.config ctx.gid ctx.actor = true then (st, [Effect.reply])
  else (st, [Effect.reply])

/-- bot.py /clearwarnings (lines 286-301): admin gate, pop the entry, save,
reply, audit. -/
def run_clearwarnings (ctx : Ctx) (m : Member) (st : BotState) :
    BotState × List Effect :=
  if is_admin_check st.config ctx.gid ctx.actor = true then
    ({ st with warns := clear_warnings st.warns ctx.gid m.id },
      [Effect.reply, Effect.auditLog])
  else (st, [Effect.reply])

/-- bot.py /setmodrole (lines 206-215): admin gate, store write, ephemeral
reply. -/
def run_setmodrole (ctx : Ctx) (rid : Nat) (st : BotState) :
    BotState × List Effect :=
  if is_admin_check st.config ctx.gid ctx.actor = true then
    ({ st with config := set_moderator_role st.config ctx.gid rid },
      [Effect.reply])
  else (st, [Effect.reply])

/-- bot.py /setadminrole (lines 218-227). -/
def run_setadminrole (ctx : Ctx) (rid : Nat) (st : BotState) :
    BotState × List Effect :=
  if is_admin_check st.config ctx.gid ctx.actor = true then
    ({ st with config := set_administrator_role st.config ctx.gid rid },
      [Effect.reply])
  else (st, [Effect.reply])

/-- bot.py /role (lines 331-366): admin gate, hierarchy check on the rank
of the role being assigned with a platform-administrator exemption, then
add when action is the literal "add", otherwise remove. -/
def run_role (ctx : Ctx) (m : Member) (roleId roleRank : Nat)
    (action : String) (st : BotState) : BotState × List Effect :=
  if is_admin_check st.config ctx.gid ctx.actor = true then
    if roleRank ≥ ctx.actor.top_role ∧ ctx.actor.administrator = false then
      (st, [Effect.reply])
    else if action == "add" then
      (st, [Effect.platformAddRole m.id roleId, Effect.reply, Effect.auditLog])
    else
      (st, [Effect.platformRemoveRole m.id roleId, Effect.reply, Effect.auditLog])
  else (st, [Effect.reply])

/-- bot.py /unban (lines 265-283): admin gate; an unparsable id or an
unknown/not-banned user yields an ephemeral error and no state change. -/
def run_unban (ctx : Ctx) (idValid found : Bool) (uid : Nat) (st : BotState) :
    BotState × List Effect :=
  if is_admin_check st.config ctx.gid ctx.actor = true then
    if idValid = false then (st, [Effect.reply])
    else if found = false then (st, [Effect.reply])
    else (st, [Effect.platformUnban uid, Effect.reply, Effect.auditLog])
  else (st, [Effect.reply])

/-- bot.py /announce (lines 304-328): admin gate, channel message, reply. -/
def run_announce (ctx : Ctx) (st : BotState) : BotState × List Effect :=
  if is_admin_check st.config ctx.gid ctx.actor = true then
    (st, [Effect.channelMsg, Effect.reply])
  else (st, [Effect.reply])

/-- bot.py /purge (lines 522-545): mod gate, bulk delete, reply, audit. -/
def run_purge (ctx : Ctx) (st : BotState) : BotState × List Effect :=
  if is_mod_check st.config ctx.gid ctx.actor = true then
    (st, [Effect.platformPurge, Effect.reply, Effect.auditLog])
  else (st, [Effect.reply])

/-- bot.py /slowmode (lines 548-568): mod gate, channel edit, reply,
audit. -/
def run_slowmode (ctx : Ctx) (seconds : Nat) (st : BotState) :
    BotState × List Effect :=
  if is_mod_check st.config ctx.gid ctx.actor = true then
    (st, [Effect.platformEditChannel, Effect.reply, Effect.auditLog])
  else (st, [Effect.reply])

/-- bot.py /lock (lines 571-597): mod gate, overwrite update, reply,
channel notice, audit. -/
def run_lock (ctx : Ctx) (st : BotState) : BotState × List Effect :=
  if is_mod_check st.config ctx.gid ctx.actor = true then
    (st, [Effect.platformSetPermissions, Effect.reply, Effect.channelMsg,
      Effect.auditLog])
  else (st, [Effect.reply])

/-- bot.py /unlock (lines 600-626). -/
def run_unlock (ctx : Ctx) (st : BotState) : BotState × List Effect :=
  if is_mod_check st.config ctx.gid ctx.actor = true then
    (st, [Effect.platformSetPermissions, Effect.reply, Effect.channelMsg,
      Effect.auditLog])
  else (st, [Effect.reply])

/-- A concrete configuration: guild 1 has moderator role 5, admin role 7. -/
def sampleCfg : ConfigDoc :=
  dset emptyConfigDoc 1 { mod_role_id := some 5, admin_role_id := some 7 }

/-- Holds the configured moderator role only. -/
def sampleMod : Member := { id := 21, roles := [5], top_role := 3, administrator := false }

/-- Holds the configured admin role only. -/
def sampleAdmin : Member := { id := 22, roles := [7], top_role := 6, administrator := false }

/-- Platform-level administrator with no configured roles. -/
def sampleBoss : Member := { id := 23, roles := [], top_role := 9, administrator := true }

/-- No permissions at all. -/
def sampleUser : Member := { id := 24, roles := [], top_role := 1, administrator := false }

/-- Sample warning records used by concrete instances. -/
def sampleRecs : List WarnRecord :=
  [{ reason := "spam", moderator := "mod1", timestamp := "2024-01-01" },
   { reason := "flood", moderator := "mod1", timestamp := "2024-01-02" },
   { reason := "abuse", moderator := "mod2", timestamp := "2024-01-03" }]

/-- One sample warning record. -/
def sampleRec : WarnRecord :=
  { reason := "spam", moderator := "mod1", timestamp := "2024-01-01" }

/-- A concrete state holding the sample configuration and no warnings. -/
def cexState : BotState := { config := sampleCfg, warns := emptyWarnDoc }

/-- Actor holding the configured admin role (rank 5), not a platform
administrator. -/
def cexActor : Member := { id := 30, roles := [7], top_role := 5, administrator := false }

/-- Target whose top role (rank 10) outranks cexActor. -/
def cexTarget : Member := { id := 31, roles := [], top_role := 10, administrator := false }

/-- Invocation context for cexActor in guild 1. -/
def cexCtx : Ctx := { gid := 1, actor := cexActor, dmOk := true, actorName := "actor", now := "t" }

/-- Context for the unprivileged sampleUser. -/
def denyCtx : Ctx := { gid := 1, actor := sampleUser, dmOk := true, actorName := "u", now := "t" }

/-- Context for the platform administrator with DM delivery denied. -/
def dmCtx : Ctx := { gid := 1, actor := sampleBoss, dmOk := false, actorName := "boss", now := "2024-01-01" }

/-- Context for the configured moderator sampleMod. -/
def modCtx : Ctx := { gid := 1, actor := sampleMod, dmOk := true, actorName := "mod1", now := "t" }

theorem dgetD_dset_self {α : Type} (d : Nat → Option α) (k : Nat)
    (v dflt : α) : dgetD (dset d k v) k dflt = v := by
  simp [dgetD, dset]

theorem dgetD_dset_ne {α : Type} (d : Nat → Option α) {k q : Nat}
    (v dflt : α) (h : q ≠ k) : dgetD (dset d k v) q dflt = dgetD d q dflt := by
  simp [dgetD, dset, h]

theorem dpop_dpop {α : Type} (d : Nat → Option α) (k : Nat) :
    dpop (dpop d k) k = dpop d k := by
  funext q
  by_cases hq : q = k <;> simp [dpop, hq]

theorem dset_dset {α : Type} (d : Nat → Option α) (k : Nat) (v v2 : α) :
    dset (dset d k v) k v2 = dset d k v2 := by
  funext q
  by_cases hq : q = k <;> simp [dset, hq]

theorem idTruthyMem_iff (o : Option Nat) (ids : List Nat) (h : o ≠ some 0) :
    idTruthyMem o ids = true ↔ ∃ r, o = some r ∧ r ∈ ids := by
  cases o with
  | none => simp [idTruthyMem]
  | some x =>
    have hx : x ≠ 0 := fun hx0 => h (by rw [hx0])
    simp [idTruthyMem, hx, List.elem_iff]

theorem list_warnings_add (w : WarnDoc) (gid uid : Nat) (rec : WarnRecord) :
    list_warnings (add_warning w gid uid rec).1 gid uid
      = list_warnings w gid uid ++ [rec]
    ∧ (add_warning w gid uid rec).2 = (list_warnings w gid uid).length + 1 := by
  constructor
  · simp [add_warning, list_warnings, dgetD_dset_self]
  · simp [add_warning, list_warnings]

/-- C1: is_mod agrees with the spec predicate can_moderate and is_admin
with can_administer (so the moderator role alone never passes is_admin),
and is_admin implies is_mod for every role set; the configured role ids
are ids of actual platform roles and hence nonzero. -/
theorem is_mod_admin_spec_equiv (cfg : ConfigDoc) (gid : Nat) (user : Member)
    (ha : get_admin_role_id cfg gid ≠ some 0)
    (hm : get_mod_role_id cfg gid ≠ some 0) :
    (is_mod_check cfg gid user = true ↔ can_moderate cfg gid user)
    ∧ (is_admin_check cfg gid user = true ↔ can_administer cfg gid user)
    ∧ (∀ u2 : Member, is_admin_check cfg gid u2 = true →
        is_mod_check cfg gid u2 = true)
    ∧ (∀ u2 : Member, can_administer cfg gid u2 → can_moderate cfg gid u2) := by
  refine ⟨?_, ?_, ?_, ?_⟩
  · unfold is_mod_check can_moderate
    by_cases hadm : user.administrator <;>
      simp [hadm, idTruthyMem_iff _ _ ha, idTruthyMem_iff _ _ hm]
  · unfold is_admin_check can_administer
    by_cases hadm : user.administrator <;>
      simp [hadm, idTruthyMem_iff _ _ ha]
  · intro u2 h
    unfold is_admin_check at h
    unfold is_mod_check
    by_cases hadm : u2.administrator <;> simp [hadm] at h ⊢
    exact Or.inl h
  · intro u2 h
    rcases h with h | h
    · exact Or.inl h
    · exact Or.inr (Or.inl h)

/-- C1 witness: the equivalences instantiated at the sample configuration
for a user holding only the moderator role. -/
theorem is_mod_admin_spec_equiv_witness :
    get_admin_role_id sampleCfg 1 ≠ some 0
    ∧ get_mod_role_id sampleCfg 1 ≠ some 0
    ∧ (is_mod_check sampleCfg 1 sampleMod = true ↔ can_moderate sampleCfg 1 sampleMod)
    ∧ (is_admin_check sampleCfg 1 sampleMod = true ↔ can_administer sampleCfg 1 sampleMod) :=
  ⟨by decide, by decide,
    (is_mod_admin_spec_equiv sampleCfg 1 sampleMod (by decide) (by decide)).1,
    (is_mod_admin_spec_equiv sampleCfg 1 sampleMod (by decide) (by decide)).2.1⟩

theorem add_warning_seq_aux (gid uid : Nat) :
    ∀ (recs : List WarnRecord) (w : WarnDoc) (c : Nat),
      list_warnings
          (recs.foldl (fun p r => add_warning p.1 gid uid r) (w, c)).1 gid uid
        = list_warnings w gid uid ++ recs
      ∧ (recs.foldl (fun p r => add_warning p.1 gid uid r) (w, c)).2
        = (if recs.isEmpty then c
           else (list_warnings w gid uid).length + recs.length) := by
  intro recs
  induction recs with
  | nil => intro w c; simp
  | cons r rest ih =>
    intro w c
    have hstep := list_warnings_add w gid uid r
    have hih := ih (add_warning w gid uid r).1 (add_warning w gid uid r).2
    constructor
    · rw [List.foldl_cons]
      rw [show (add_warning (w, c).1 gid uid r) =
        ((add_warning w gid uid r).1, (add_warning w gid uid r).2) from rfl]
      rw [hih.1, hstep.1, List.append_assoc]
      rfl
    · rw [List.foldl_cons]
      rw [show (add_warning (w, c).1 gid uid r) =
        ((add_warning w gid uid r).1, (add_warning w gid uid r).2) from rfl]
      rw [hih.2, hstep.1, hstep.2]
      cases rest with
      | nil => simp
      | cons r2 rest2 => simp; omega

/-- C2: starting from a ledger state holding no records for the pair, N
sequential warn calls leave exactly those N records in call order, and the
count reported by the last call equals N. -/
theorem warn_sequence_spec (w : WarnDoc) (gid uid : Nat)
    (recs : List WarnRecord) (h : list_warnings w gid uid = []) :
    list_warnings (add_warning_seq w gid uid recs).1 gid uid = recs
    ∧ (add_warning_seq w gid uid recs).2 = recs.length := by
  have haux := add_warning_seq_aux gid uid recs w 0
  unfold add_warning_seq
  rw [haux.1, haux.2, h]
  cases recs <;> simp

/-- C2 witness: three warnings added to an empty ledger for guild 100,
user 55 are listed in call order and the last reported count is 3. -/
theorem warn_sequence_spec_witness :
    list_warnings emptyWarnDoc 100 55 = []
    ∧ (list_warnings (add_warning_seq emptyWarnDoc 100 55 sampleRecs).1 100 55
        = sampleRecs
      ∧ (add_warning_seq emptyWarnDoc 100 55 sampleRecs).2 = sampleRecs.length) :=
  ⟨rfl, warn_sequence_spec emptyWarnDoc 100 55 sampleRecs rfl⟩

/-- C4: setting the moderator role is observed by the getter, a repeated
set overwrites the previous value, and the administrator-role field of the
same server's entry is untouched by the set. -/
theorem setmodrole_get_set_spec (cfg : ConfigDoc) (gid r r2 : Nat) :
    get_mod_role_id (set_moderator_role cfg gid r) gid = some r
    ∧ get_mod_role_id
        (set_moderator_role (set_moderator_role cfg gid r) gid r2) gid = some r2
    ∧ get_admin_role_id (set_moderator_role cfg gid r) gid
        = get_admin_role_id cfg gid := by
  refine ⟨?_, ?_, ?_⟩ <;>
    simp [get_mod_role_id, get_admin_role_id, set_moderator_role,
      dgetD_dset_self]

/-- C5: clearing warnings leaves the pair's record list empty, and a second
clear is a no-op on the document. -/
theorem clear_warnings_spec (w : WarnDoc) (gid uid : Nat) :
    list_warnings (clear_warnings w gid uid) gid uid = []
    ∧ clear_warnings (clear_warnings w gid uid) gid uid
        = clear_warnings w gid uid := by
  cases hw : w gid with
  | none =>
    have h1 : clear_warnings w gid uid = w := by
      simp [clear_warnings, hw]
    rw [h1]
    constructor
    · simp [list_warnings, dgetD, hw]
    · exact h1
  | some um =>
    have h1 : clear_warnings w gid uid = dset w gid (dpop um uid) := by
      simp [clear_warnings, hw]
    rw [h1]
    constructor
    · unfold list_warnings
      rw [dgetD_dset_self]
      simp [dgetD, dpop]
    · have h2 : (dset w gid (dpop um uid)) gid = some (dpop um uid) := by
        simp [dset]
      simp only [clear_warnings, h2]
      rw [dpop_dpop, dset_dset]

/-- C9: a warn appends exactly one record to its own (guild, user) entry,
leaves the record list of every other (guild, user) key unchanged, and the
warn command never changes the config document. -/
theorem warn_frame_spec (w : WarnDoc) (gid uid : Nat) (rec : WarnRecord)
    (ctx : Ctx) (m : Member) (reason : String) (st : BotState) :
    list_warnings (add_warning w gid uid rec).1 gid uid
      = list_warnings w gid uid ++ [rec]
    ∧ (∀ g2 u2, ¬ (g2 = gid ∧ u2 = uid) →
        list_warnings (add_warning w gid uid rec).1 g2 u2
          = list_warnings w g2 u2)
    ∧ (run_warn ctx m reason st).1.config = st.config := by
  refine ⟨(list_warnings_add w gid uid rec).1, ?_, ?_⟩
  · intro g2 u2 hne
    by_cases hg : g2 = gid
    · subst hg
      have hu : u2 ≠ uid := fun h => hne ⟨rfl, h⟩
      unfold list_warnings add_warning
      rw [dgetD_dset_self, dgetD_dset_ne _ _ _ hu]
    · unfold list_warnings add_warning
      rw [dgetD_dset_ne _ _ _ hg]
  · by_cases hgate : is_mod_check st.config ctx.gid ctx.actor = true <;>
      simp [run_warn, hgate]

/-- C9 witness: a warn for guild 1, user 2 leaves the records of guild 2,
user 3 unchanged. -/
theorem warn_frame_spec_witness :
    ¬ ((2 : Nat) = 1 ∧ (3 : Nat) = 2)
    ∧ list_warnings (add_warning emptyWarnDoc 1 2 sampleRec).1 2 3
        = list_warnings emptyWarnDoc 2 3 :=
  ⟨by decide,
    (warn_frame_spec emptyWarnDoc 1 2 sampleRec cexCtx sampleMod "r"
      cexState).2.1 2 3 (by decide)⟩

/-- C10: the untimeout handler has no hierarchy check — every actor who
passes the moderator gate removes the timeout of every target, including
one whose top role ranks at or above the actor's own. -/
theorem untimeout_no_hierarchy_spec (ctx : Ctx) (m : Member) (st : BotState)
    (hgate : is_mod_check st.config ctx.gid ctx.actor = true) :
    run_untimeout ctx m st
      = (st, [Effect.platformUntimeout m.id, Effect.reply, Effect.auditLog]) := by
  simp [run_untimeout, hgate]

/-- C10 witness: the configured moderator (top role rank 3) untimeouts a
target of rank 10 without rejection. -/
theorem untimeout_no_hierarchy_spec_witness :
    is_mod_check cexState.config modCtx.gid modCtx.actor = true
    ∧ cexTarget.top_role ≥ modCtx.actor.top_role
    ∧ run_untimeout modCtx cexTarget cexState
        = (cexState, [Effect.platformUntimeout 31, Effect.reply, Effect.auditLog]) :=
  ⟨by decide, by decide,
    untimeout_no_hierarchy_spec modCtx cexTarget cexState (by decide)⟩

/-- C3 counterexample: the hierarchy premise of the claim holds (the
target's top role, rank 10, is at least the actor's, rank 5, and the actor
is not a platform administrator and so is not exempt), yet the role
command performs the privileged role addition instead of rejecting —
its check looks at the rank of the role being assigned (3), not at the
target's top role. -/
theorem role_hierarchy_counterexample :
    cexTarget.top_role ≥ cexCtx.actor.top_role
    ∧ cexCtx.actor.administrator = false
    ∧ run_role cexCtx cexTarget 3 3 "add" cexState
        = (cexState, [Effect.platformAddRole 31 3, Effect.reply, Effect.auditLog]) :=
  ⟨by decide, rfl, rfl⟩

/-- C3 amended: for ban, kick and timeout a target whose top role ranks at
or above the actor's is always rejected before the platform action; for
role-assignment the hierarchy check instead tests the rank of the role
being assigned — rejected exactly when that rank is at least the actor's
top role and the actor lacks platform-level administrator permission — and
the target's top role is never consulted. -/
theorem hierarchy_checks_spec (ctx : Ctx) (m : Member) (minutes : Nat)
    (roleId roleRank : Nat) (action : String) (st : BotState) :
    (m.top_role ≥ ctx.actor.top_role →
      run_ban ctx m st = (st, [Effect.reply]))
    ∧ (m.top_role ≥ ctx.actor.top_role →
      run_kick ctx m st = (st, [Effect.reply]))
    ∧ (m.top_role ≥ ctx.actor.top_role →
      run_timeout ctx m minutes st = (st, [Effect.reply]))
    ∧ (is_admin_check st.config ctx.gid ctx.actor = true →
      (run_role ctx m roleId roleRank action st = (st, [Effect.reply])
        ↔ roleRank ≥ ctx.actor.top_role ∧ ctx.actor.administrator = false)) := by
  refine ⟨?_, ?_, ?_, ?_⟩
  · intro h
    by_cases hg : is_admin_check st.config ctx.gid ctx.actor = true <;>
      simp [run_ban, hg, h]
  · intro h
    by_cases hg : is_mod_check st.config ctx.gid ctx.actor = true <;>
      simp [run_kick, hg, h]
  · intro h
    by_cases hg : is_mod_check st.config ctx.gid ctx.actor = true <;>
      simp [run_timeout, hg, h]
  · intro hg
    constructor
    · intro hres
      by_contra hcond
      have hne : run_role ctx m roleId roleRank action st ≠ (st, [Effect.reply]) := by
        cases hact : action == "add" <;>
          simp [run_role, hg, hcond, hact]
      exact hne hres
    · intro hcond
      simp [run_role, hg, hcond]

/-- C3 amended witness: a ban attempt against a target of equal-or-higher
top role is rejected with the state unchanged. -/
theorem hierarchy_checks_spec_witness :
    cexTarget.top_role ≥ cexCtx.actor.top_role
    ∧ run_ban cexCtx cexTarget cexState = (cexState, [Effect.reply]) :=
  ⟨by decide,
    (hierarchy_checks_spec cexCtx cexTarget 1 3 3 "add" cexState).1 (by decide)⟩

/-- C6 counterexample: on a corrupt backing file both loaders propagate the
parse error instead of returning the empty store. -/
theorem load_corrupt_counterexample :
    load_config FileState.corrupt = Except.error "JSONDecodeError"
    ∧ load_config FileState.corrupt ≠ Except.ok emptyConfigDoc
    ∧ load_warnings FileState.corrupt = Except.error "JSONDecodeError"
    ∧ load_warnings FileState.corrupt ≠ Except.ok emptyWarnDoc :=
  ⟨rfl, fun h => Except.noConfusion h, rfl, fun h => Except.noConfusion h⟩

/-- C6 amended: an absent backing file reads as the empty store with no
error; an unreadable or corrupt file raises to the caller; a parseable
file reads as its stored document. -/
theorem load_store_spec :
    load_config FileState.absent = Except.ok emptyConfigDoc
    ∧ load_warnings FileState.absent = Except.ok emptyWarnDoc
    ∧ load_config FileState.unreadable = Except.error "OSError"
    ∧ load_warnings FileState.unreadable = Except.error "OSError"
    ∧ load_config FileState.corrupt = Except.error "JSONDecodeError"
    ∧ load_warnings FileState.corrupt = Except.error "JSONDecodeError"
    ∧ (∀ d : ConfigDoc, load_config (FileState.stored d) = Except.ok d)
    ∧ (∀ d : WarnDoc, load_warnings (FileState.stored d) = Except.ok d) :=
  ⟨rfl, rfl, rfl, rfl, rfl, rfl, fun _ => rfl, fun _ => rfl⟩

/-- C7: a failed permission check aborts every moderation command with only
the ephemeral rejection reply and no change to the persistent state, and a
hierarchy rejection aborts ban, kick, timeout and role the same way,
before any privileged platform call. -/
theorem deny_abort_spec (ctx : Ctx) (m : Member) (reason : String)
    (minutes rid roleId roleRank seconds uid : Nat) (action : String)
    (idValid found : Bool) (st : BotState) :
    (is_admin_check st.config ctx.gid ctx.actor = false →
      run_ban ctx m st = (st, [Effect.reply])
      ∧ run_role ctx m roleId roleRank action st = (st, [Effect.reply])
      ∧ run_clearwarnings ctx m st = (st, [Effect.reply])
      ∧ run_setmodrole ctx rid st = (st, [Effect.reply])
      ∧ run_setadminrole ctx rid st = (st, [Effect.reply])
      ∧ run_unban ctx idValid found uid st = (st, [Effect.reply])
      ∧ run_announce ctx st = (st, [Effect.reply]))
    ∧ (is_mod_check st.config ctx.gid ctx.actor = false →
      run_kick ctx m st = (st, [Effect.reply])
      ∧ run_timeout ctx m minutes st = (st, [Effect.reply])
      ∧ run_untimeout ctx m st = (st, [Effect.reply])
      ∧ run_warn ctx m reason st = (st, [Effect.reply])
      ∧ run_warnings ctx m st = (st, [Effect.reply])
      ∧ run_purge ctx st = (st, [Effect.reply])
      ∧ run_slowmode ctx seconds st = (st, [Effect.reply])
      ∧ run_lock ctx st = (st, [Effect.reply])
      ∧ run_unlock ctx st = (st, [Effect.reply]))
    ∧ (m.top_role ≥ ctx.actor.top_role →
      run_ban ctx m st = (st, [Effect.reply])
      ∧ run_kick ctx m st = (st, [Effect.reply])
      ∧ run_timeout ctx m minutes st = (st, [Effect.reply]))
    ∧ (roleRank ≥ ctx.actor.top_role ∧ ctx.actor.administrator = false →
      run_role ctx m roleId roleRank action st = (st, [Effect.reply])) := by
  refine ⟨?_, ?_, ?_, ?_⟩
  · intro h
    refine ⟨?_, ?_, ?_, ?_, ?_, ?_, ?_⟩ <;>
      simp [run_ban, run_role, run_clearwarnings, run_setmodrole,
        run_setadminrole, run_unban, run_announce, h]
  · intro h
    refine ⟨?_, ?_, ?_, ?_, ?_, ?_, ?_, ?_, ?_⟩ <;>
      simp [run_kick, run_timeout, run_untimeout, run_warn, run_warnings,
        run_purge, run_slowmode, run_lock, run_unlock, h]
  · intro h
    refine ⟨?_, ?_, ?_⟩
    · by_cases hg : is_admin_check st.config ctx.gid ctx.actor = true <;>
        simp [run_ban, hg, h]
    · by_cases hg : is_mod_check st.config ctx.gid ctx.actor = true <;>
        simp [run_kick, hg, h]
    · by_cases hg : is_mod_check st.config ctx.gid ctx.actor = true <;>
        simp [run_timeout, hg, h]
  · intro h
    by_cases hg : is_admin_check st.config ctx.gid ctx.actor = true <;>
      simp [run_role, hg, h]

/-- C7 witness: the unprivileged user invoking /ban is rejected with the
state unchanged. -/
theorem deny_abort_spec_witness :
    is_admin_check cexState.config denyCtx.gid denyCtx.actor = false
    ∧ run_ban denyCtx cexTarget cexState = (cexState, [Effect.reply]) :=
  ⟨by decide,
    ((deny_abort_spec denyCtx cexTarget "r" 1 1 1 1 1 1 "add" true true
      cexState).1 (by decide)).1⟩

/-- C8: when direct-message delivery is denied, ban and kick still perform
the privileged platform action and the audit emission, warn still writes
its ledger record and audits, and in each case the resulting persistent
state is the same one reached when the direct message succeeds. -/
theorem dm_failure_spec (ctx : Ctx) (m : Member) (reason : String)
    (st : BotState) (hdm : ctx.dmOk = false) :
    (is_admin_check st.config ctx.gid ctx.actor = true →
      m.top_role < ctx.actor.top_role →
      run_ban ctx m st
        = (st, [Effect.platformBan m.id, Effect.reply, Effect.auditLog])
      ∧ (run_ban ctx m st).1 = (run_ban { ctx with dmOk := true } m st).1)
    ∧ (is_mod_check st.config ctx.gid ctx.actor = true →
      m.top_role < ctx.actor.top_role →
      run_kick ctx m st
        = (st, [Effect.platformKick m.id, Effect.reply, Effect.auditLog])
      ∧ (run_kick ctx m st).1 = (run_kick { ctx with dmOk := true } m st).1)
    ∧ (is_mod_check st.config ctx.gid ctx.actor = true →
      (run_warn ctx m reason st).2 = [Effect.reply, Effect.auditLog]
      ∧ list_warnings (run_warn ctx m reason st).1.warns ctx.gid m.id
          = list_warnings st.warns ctx.gid m.id
            ++ [{ reason := reason, moderator := ctx.actorName, timestamp := ctx.now }]
      ∧ (run_warn ctx m reason st).1
          = (run_warn { ctx with dmOk := true } m reason st).1) := by
  refine ⟨?_, ?_, ?_⟩
  · intro hg hlt
    have hh : ¬ m.top_role ≥ ctx.actor.top_role := not_le.mpr hlt
    constructor
    · simp [run_ban, hg, hh, hdm]
    · simp [run_ban, hg, hh, hdm]
  · intro hg hlt
    have hh : ¬ m.top_role ≥ ctx.actor.top_role := not_le.mpr hlt
    constructor
    · simp [run_kick, hg, hh, hdm]
    · simp [run_kick, hg, hh, hdm]
  · intro hg
    refine ⟨?_, ?_, ?_⟩
    · simp [run_warn, hg, hdm]
    · simp only [run_warn, hg, if_true]
      exact (list_warnings_add st.warns ctx.gid m.id
        { reason := reason, moderator := ctx.actorName, timestamp := ctx.now }).1
    · simp [run_warn, hg]

/-- C8 witness: the platform administrator bans a lower-ranked target with
direct messages closed; the ban and the audit emission still happen. -/
theorem dm_failure_spec_witness :
    dmCtx.dmOk = false
    ∧ is_admin_check cexState.config dmCtx.gid dmCtx.actor = true
    ∧ sampleUser.top_role < dmCtx.actor.top_role
    ∧ run_ban dmCtx sampleUser cexState
        = (cexState, [Effect.platformBan 24, Effect.reply, Effect.auditLog]) :=
  ⟨rfl, by decide, by decide,
    ((dm_failure_spec dmCtx sampleUser "r" cexState rfl).1 (by decide)
      (by decide)).1⟩
